import Mathlib

/-!
Shallow embedding of the Leonardo anime-catalog repository pieces under
verification: the form-validation engine (src/lib/validation.ts), the
listing/query controller with its search debounce and URL synchronisation
(src/components/AnimeList.tsx and the information page), and the stored-user
load logic (src/contexts/UserContext.tsx).

JavaScript strings are modelled as Lean strings; the inputs of interest are
ASCII, where JS UTF-16 lengths and Lean codepoint lengths agree.  JS number
values that may be NaN (results of parseInt) are modelled as Option Int with
none standing for NaN.
-/

/-- Whitespace as recognised by the JS string trim and by the \s regex class
on the ASCII range: space, tab, line feed, carriage return, vertical tab and
form feed. -/
def jsWhitespaceChar (c : Char) : Bool :=
  c = ' ' || c = '\t' || c = '\n' || c = '\r' || c = Char.ofNat 11 || c = Char.ofNat 12

/-- Character-list version of the JS String.prototype.trim: drop whitespace
from the front, then from the back (the back is handled by reversing). -/
def trimChars (l : List Char) : List Char :=
  ((l.dropWhile jsWhitespaceChar).reverse.dropWhile jsWhitespaceChar).reverse

/-- Model of the JS builtin value.trim() used by validateField. -/
def jsTrim (s : String) : String :=
  ⟨trimChars s.data⟩

theorem dropWhile_first_false (p : Char → Bool) :
    ∀ (l : List Char) (a : Char) (t : List Char),
      l.dropWhile p = a :: t → p a = false := by
  intro l
  induction l with
  | nil => intro a t h; simp at h
  | cons b l ih =>
    intro a t h
    by_cases hb : p b = true
    · rw [List.dropWhile_cons, if_pos hb] at h
      exact ih a t h
    · rw [List.dropWhile_cons, if_neg hb] at h
      cases h
      simpa using hb

theorem dropWhile_self (p : Char → Bool) (l : List Char) :
    (l.dropWhile p).dropWhile p = l.dropWhile p := by
  cases h : l.dropWhile p with
  | nil => simp
  | cons a t =>
    have ha := dropWhile_first_false p l a t h
    rw [List.dropWhile_cons, if_neg (by simp [ha])]

theorem trimChars_idem (l : List Char) :
    trimChars (trimChars l) = trimChars l := by
  unfold trimChars
  set p := jsWhitespaceChar with hp
  set m := l.dropWhile p with hm
  set r := m.reverse.dropWhile p with hr
  have step1 : r.reverse.dropWhile p = r.reverse := by
    cases hrr : r.reverse with
    | nil => simp
    | cons a t =>
      have hsuf : r <:+ m.reverse :=
        ⟨m.reverse.takeWhile p, by rw [hr]; exact List.takeWhile_append_dropWhile p m.reverse⟩
      obtain ⟨u, hu⟩ := hsuf
      have hmsplit : m = a :: (t ++ u.reverse) := by
        have hm2 : m = (u ++ r).reverse := by rw [hu, List.reverse_reverse]
        rw [hm2, List.reverse_append, hrr]
        simp
      have ha : p a = false := dropWhile_first_false p l a (t ++ u.reverse) (hm ▸ hmsplit)
      rw [List.dropWhile_cons, if_neg (by simp [ha])]
  rw [step1, List.reverse_reverse, hr, dropWhile_self]

theorem jsTrim_idem (s : String) : jsTrim (jsTrim s) = jsTrim s := by
  unfold jsTrim
  exact congrArg String.mk (trimChars_idem s.data)

theorem trimChars_eq_nil_iff (l : List Char) :
    trimChars l = [] ↔ l.all jsWhitespaceChar = true := by
  unfold trimChars
  simp only [List.reverse_eq_nil_iff, List.dropWhile_eq_nil_iff, List.mem_reverse,
    List.all_eq_true]
  constructor
  · intro h x hx
    have hx2 : x ∈ l.takeWhile jsWhitespaceChar ++ l.dropWhile jsWhitespaceChar := by
      rw [List.takeWhile_append_dropWhile]; exact hx
    rcases List.mem_append.mp hx2 with h1 | h2
    · exact List.mem_takeWhile_imp h1
    · exact h x h2
  · intro h x hx
    exact h x ((List.dropWhile_sublist jsWhitespaceChar).subset hx)

theorem jsTrim_eq_empty_iff (s : String) :
    jsTrim s = "" ↔ s.data.all jsWhitespaceChar = true := by
  rw [← trimChars_eq_nil_iff]
  constructor
  · intro h; exact congrArg String.data h
  · intro h; exact congrArg String.mk h

/-! ## Validation engine (src/lib/validation.ts) -/

/-- Rule set for one field, from the ValidationRule interface.  The regex
field is modelled as a decidable string predicate; absent JS fields are none,
and the falsy-zero behaviour of the JS truthiness guards on minLength and
maxLength is reproduced at the use sites. -/
structure ValidationRule where
  required : Bool := false
  minLength : Option Nat := none
  maxLength : Option Nat := none
  pattern : Option (String → Bool) := none

/-- Result record of the validation engine. -/
structure ValidationResult where
  isValid : Bool
  errors : List String
deriving DecidableEq

namespace ERROR_MESSAGES

def REQUIRED : String := "This field is required"

def MIN_LENGTH (min : Nat) : String := s!"Must be at least {min} characters"

def MAX_LENGTH (max : Nat) : String := s!"Must be no more than {max} characters"

def INVALID_USERNAME : String :=
  "Username must be 3-20 characters and contain only letters, numbers, underscores, and hyphens"

def INVALID_JOB_TITLE : String := "Job title must contain only letters and spaces"

end ERROR_MESSAGES

namespace VALIDATION_PATTERNS

/-- The anchored regex /^[a-zA-Z0-9_-]\x7b3,20\x7d$/: between 3 and 20
characters, all alphanumeric ASCII, underscore or hyphen. -/
def USERNAME (s : String) : Bool :=
  3 ≤ s.length && s.length ≤ 20 &&
    s.data.all (fun c => c.isAlpha || c.isDigit || c = '_' || c = '-')

/-- The anchored regex /^[A-Za-z\s]+$/: at least one character, all ASCII
letters or whitespace. -/
def JOB_TITLE (s : String) : Bool :=
  1 ≤ s.length && s.data.all (fun c => c.isAlpha || jsWhitespaceChar c)

end VALIDATION_PATTERNS

/-- The minLength branch of validateField: rules.minLength is truthy (present
and nonzero) and the trimmed length falls short. -/
def minLengthCheck (rules : ValidationRule) (t : String) : List String :=
  match rules.minLength with
  | some m => if m ≠ 0 ∧ t.length < m then [ERROR_MESSAGES.MIN_LENGTH m] else []
  | none => []

/-- The maxLength branch of validateField. -/
def maxLengthCheck (rules : ValidationRule) (t : String) : List String :=
  match rules.maxLength with
  | some m => if m ≠ 0 ∧ m < t.length then [ERROR_MESSAGES.MAX_LENGTH m] else []
  | none => []

/-- Message pushed on a pattern violation, selected by the optional fieldName
argument of validateField. -/
def patternMessage (fieldName : Option String) : String :=
  if fieldName = some "username" then ERROR_MESSAGES.INVALID_USERNAME
  else if fieldName = some "jobTitle" then ERROR_MESSAGES.INVALID_JOB_TITLE
  else "Invalid format"

/-- The pattern branch of validateField. -/
def patternCheck (rules : ValidationRule) (fieldName : Option String) (t : String) :
    List String :=
  match rules.pattern with
  | some p => if p t = false then [patternMessage fieldName] else []
  | none => []

/-- validateField from src/lib/validation.ts: required short-circuit, empty
pass-through, then the three cumulative checks on the trimmed value. -/
def validateField (value : String) (rules : ValidationRule)
    (fieldName : Option String) : ValidationResult :=
  if rules.required = true ∧ jsTrim value = "" then
    { isValid := false, errors := [ERROR_MESSAGES.REQUIRED] }
  else if jsTrim value = "" then
    { isValid := true, errors := [] }
  else
    let trimmedValue := jsTrim value
    let errors := minLengthCheck rules trimmedValue ++
      maxLengthCheck rules trimmedValue ++ patternCheck rules fieldName trimmedValue
    { isValid := errors.isEmpty, errors := errors }

namespace VALIDATION_SCHEMA

def username : ValidationRule :=
  { required := true, minLength := some 3, maxLength := some 20,
    pattern := some VALIDATION_PATTERNS.USERNAME }

def jobTitle : ValidationRule :=
  { required := true, minLength := some 2, maxLength := some 50,
    pattern := some VALIDATION_PATTERNS.JOB_TITLE }

end VALIDATION_SCHEMA

/-- The form-data record handled by validateForm. -/
structure FormData where
  username : String
  jobTitle : String

/-- validateForm returns an object with the username result first and the
jobTitle result second; Object.values preserves that insertion order, so the
object is modelled as an association list. -/
def validateForm (data : FormData) : List (String × ValidationResult) :=
  [("username", validateField data.username VALIDATION_SCHEMA.username (some "username")),
   ("jobTitle", validateField data.jobTitle VALIDATION_SCHEMA.jobTitle (some "jobTitle"))]

/-- isFormValid: Object.values(results).every(r => r.isValid). -/
def isFormValid (validationResults : List (String × ValidationResult)) : Bool :=
  validationResults.all (fun r => r.2.isValid)

/-- getFormErrors: Object.values(results).flatMap(r => r.errors). -/
def getFormErrors (validationResults : List (String × ValidationResult)) : List String :=
  validationResults.flatMap (fun r => r.2.errors)

/-! ## Listing/query controller (src/components/AnimeList.tsx and the
information page variant with search, src/app/information/page.tsx) -/

/-- Longest leading run of ASCII digits, as consumed by the JS parseInt;
none when the run is empty (parseInt then yields NaN). -/
def leadingDigits (l : List Char) : Option Nat :=
  let d := l.takeWhile Char.isDigit
  if d.isEmpty then none
  else some (d.foldl (fun acc c => acc * 10 + (c.toNat - '0'.toNat)) 0)

/-- Model of the JS builtin parseInt in base 10: skip leading whitespace,
read an optional sign and then the longest digit run; none models NaN. -/
def parseIntJS (s : String) : Option Int :=
  match s.data.dropWhile jsWhitespaceChar with
  | '-' :: rest => (leadingDigits rest).map (fun n => -(n : Int))
  | '+' :: rest => (leadingDigits rest).map (fun n => (n : Int))
  | l => (leadingDigits l).map (fun n => (n : Int))

/-- URLSearchParams.get: the value of the first pair with the given key,
null (none) when absent. -/
def getParam (params : List (String × String)) (k : String) : Option String :=
  (params.find? (fun kv => kv.1 == k)).map (fun kv => kv.2)

/-- The JS pattern searchParams.get(k) || d: the default replaces both a
missing parameter (null) and an empty string (both falsy). -/
def jsOrDefault (v : Option String) (d : String) : String :=
  match v with
  | none => d
  | some s => if s = "" then d else s

/-- Reactive state of the listing controller: the raw typed search value, the
committed (debounced) search, page and perPage as JS numbers, and whether a
debounce timer is armed. -/
structure ListState where
  searchTerm : String
  debouncedSearch : String
  page : Option Int
  perPage : Option Int
  timerPending : Bool
deriving DecidableEq

/-- State reconstructed from the URL query parameters at load: searchTerm and
debouncedSearch both start from the search parameter (empty default), page
and perPage from parseInt of their parameters with string defaults 1 and 12.
No validation or clamping is applied to the parsed numbers. -/
def loadListState (params : List (String × String)) : ListState :=
  { searchTerm := (getParam params "search").getD ""
  , debouncedSearch := (getParam params "search").getD ""
  , page := parseIntJS (jsOrDefault (getParam params "page") "1")
  , perPage := parseIntJS (jsOrDefault (getParam params "perPage") "12")
  , timerPending := false }

/-- Discrete events of the controller: a keystroke in the search box
(handleSearch) and the 400ms debounce timer firing uncancelled. -/
inductive ListEvent where
  | keystroke (v : String)
  | idle400

/-- The setTimeout delay of the search debounce, in milliseconds. -/
def debounceDelayMs : Nat := 400

/-- One transition of the controller.  A keystroke runs handleSearch (set the
typed value, reset page to 1) and re-arms the debounce timer; idle400 models
debounceDelayMs elapsing with no further keystroke, so the armed timer fires:
when the typed value has length 0 or at least 3 it is committed as the
effective search and page resets to 1, otherwise nothing is committed. -/
def stepList (s : ListState) (e : ListEvent) : ListState :=
  match e with
  | .keystroke v => { s with searchTerm := v, page := some 1, timerPending := true }
  | .idle400 =>
    if s.timerPending = true then
      if s.searchTerm.length = 0 ∨ 3 ≤ s.searchTerm.length then
        { s with debouncedSearch := s.searchTerm, page := some 1, timerPending := false }
      else
        { s with timerPending := false }
    else s

/-- handlePerPageChange: perPage becomes parseInt of the select value and
page is reset to 1. -/
def handlePerPageChange (s : ListState) (value : String) : ListState :=
  { s with perPage := parseIntJS value, page := some 1 }

/-- The query-state invariant asserted by the spec: perPage is one of 6, 12,
24, 48 and page is an integer at least 1 (none models NaN and violates
both). -/
def queryInvariant (s : ListState) : Bool :=
  (match s.perPage with
   | some n => n == 6 || n == 12 || n == 24 || n == 48
   | none => false) &&
  (match s.page with
   | some p => decide (1 ≤ p)
   | none => false)

/-- NaN-aware model of the JS comparison newPage > 1 (false on NaN). -/
def jsGtOne (v : Option Int) : Bool :=
  match v with
  | some n => decide (1 < n)
  | none => false

/-- NaN-aware model of the JS comparison newPerPage !== 12 (true on NaN). -/
def jsNeTwelve (v : Option Int) : Bool :=
  match v with
  | some n => decide (n ≠ 12)
  | none => true

/-- Model of the JS Number.prototype.toString on a possibly-NaN number. -/
def jsNumToString (v : Option Int) : String :=
  match v with
  | some n => toString n
  | none => "NaN"

/-- The parameter list built by updateURL: page when greater than 1, search
when non-empty, perPage when different from 12, in that insertion order. -/
def urlParams (newPage : Option Int) (newSearch : String) (newPerPage : Option Int) :
    List (String × String) :=
  (if jsGtOne newPage = true then [("page", jsNumToString newPage)] else []) ++
  (if newSearch ≠ "" then [("search", newSearch)] else []) ++
  (if jsNeTwelve newPerPage = true then [("perPage", jsNumToString newPerPage)] else [])

/-- URLSearchParams.toString on the values this app produces: key=value pairs
joined by ampersands (none of the produced values needs escaping). -/
def renderQuery (params : List (String × String)) : String :=
  String.intercalate "&" (params.map (fun kv => kv.1 ++ "=" ++ kv.2))

/-- updateURL: the query-string suffix pushed to the router, empty when every
parameter equals its default and otherwise a question mark followed by the
rendered parameters. -/
def updateURL (newPage : Option Int) (newSearch : String) (newPerPage : Option Int) :
    String :=
  let params := urlParams newPage newSearch newPerPage
  if params.isEmpty then "" else "?" ++ renderQuery params

/-- Split a character list at every occurrence of the separator. -/
def splitOnChar (sep : Char) : List Char → List (List Char)
  | [] => [[]]
  | c :: rest =>
    let r := splitOnChar sep rest
    if c = sep then [] :: r
    else
      match r with
      | [] => [[c]]
      | h :: t => (c :: h) :: t

/-- Split one key=value component at the first equals sign; a component with
no equals sign gets an empty value. -/
def splitPair (kv : List Char) : String × String :=
  let k := kv.takeWhile (fun c => ¬ c = '=')
  match kv.dropWhile (fun c => ¬ c = '=') with
  | [] => (⟨k⟩, "")
  | _ :: v => (⟨k⟩, ⟨v⟩)

/-- Model of URLSearchParams parsing of a query string: strip a leading
question mark, split on ampersands, split each pair at the first equals
sign. -/
def parseQuery (s : String) : List (String × String) :=
  let body :=
    match s.data with
    | '?' :: rest => rest
    | l => l
  if body = [] then []
  else (splitOnChar '&' body).map splitPair

/-! ## Stored-user load (src/contexts/UserContext.tsx) -/

/-- The user record persisted under the single local-storage key. -/
structure User where
  username : String
  job : String
deriving DecidableEq

/-- Outcome of running JSON.parse on the stored text: a user record, or a
thrown parse exception. -/
inductive JsonOutcome where
  | ok (u : User)
  | thrown
deriving DecidableEq

/-- State after the startup load effect: the user state, the storage content
left behind, and the loading flag. -/
structure LoadResult where
  user : Option User
  storedAfter : Option String
  isLoading : Bool
deriving DecidableEq

/-- The startup effect of UserProvider.  It reads the storage key once; when
content is present it is passed to JSON.parse (an external JS builtin,
modelled by the jsonParse argument); a thrown parse failure is caught: the
user stays null and the key is removed.  The function is total, so no error
propagates to the caller in any case, and isLoading becomes false. -/
def loadUserFromStorage (stored : Option String) (jsonParse : String → JsonOutcome) :
    LoadResult :=
  match stored with
  | none => { user := none, storedAfter := none, isLoading := false }
  | some s =>
    match jsonParse s with
    | .ok u => { user := some u, storedAfter := some s, isLoading := false }
    | .thrown => { user := none, storedAfter := none, isLoading := false }

/-! ## Claim theorems -/

/-- Claim C1: for any rule set with required set and any value that is empty
or consists only of whitespace, validateField short-circuits to an invalid
result whose error list is exactly the single required message, whatever the
other rules are; and for the rule set with only required set, the result is
invalid exactly when the value is empty or all-whitespace. -/
theorem validateField_required_shortcircuit :
    (∀ (rules : ValidationRule) (fn : Option String) (v : String),
      rules.required = true → v.data.all jsWhitespaceChar = true →
      validateField v rules fn =
        { isValid := false, errors := [ERROR_MESSAGES.REQUIRED] })
    ∧ (∀ v : String,
      ((validateField v { required := true } none).isValid = false ↔
        v.data.all jsWhitespaceChar = true)) := by
  constructor
  · intro rules fn v hreq hws
    have ht : jsTrim v = "" := (jsTrim_eq_empty_iff v).mpr hws
    unfold validateField
    rw [if_pos ⟨hreq, ht⟩]
  · intro v
    by_cases ht : jsTrim v = ""
    · constructor
      · intro _; exact (jsTrim_eq_empty_iff v).mp ht
      · intro _
        unfold validateField
        rw [if_pos ⟨rfl, ht⟩]
    · constructor
      · intro hinval
        exfalso
        unfold validateField at hinval
        rw [if_neg (fun h => ht h.2), if_neg ht] at hinval
        simp [minLengthCheck, maxLengthCheck, patternCheck] at hinval
      · intro hws
        exact absurd ((jsTrim_eq_empty_iff v).mpr hws) ht

/-- Witness for C1 at a concrete whitespace value and a rule set that also
contains a minLength rule, which the short-circuit never reaches. -/
theorem validateField_required_shortcircuit_witness :
    validateField "   " { required := true, minLength := some 5 } none =
      { isValid := false, errors := [ERROR_MESSAGES.REQUIRED] } :=
  validateField_required_shortcircuit.1
    { required := true, minLength := some 5 } none "   " rfl (by decide)

/-- Claim C3: for a value that is non-empty after trimming, the error list of
validateField is the concatenation of the minLength, maxLength and pattern
check outputs in that fixed order, so every violated rule contributes its
error; in particular validateField on the two-character value with a
minLength of 3 yields exactly the single minimum-length message, and a value
violating both minLength and pattern reports both messages in order. -/
theorem validateField_cumulative_ordered :
    (∀ (rules : ValidationRule) (fn : Option String) (v : String),
      jsTrim v ≠ "" →
      (validateField v rules fn).errors =
        minLengthCheck rules (jsTrim v) ++ maxLengthCheck rules (jsTrim v) ++
          patternCheck rules fn (jsTrim v))
    ∧ validateField "ab" { minLength := some 3 } none =
        { isValid := false, errors := ["Must be at least 3 characters"] }
    ∧ validateField "a@"
        { minLength := some 3, pattern := some VALIDATION_PATTERNS.USERNAME }
        (some "username") =
        { isValid := false,
          errors := ["Must be at least 3 characters",
            ERROR_MESSAGES.INVALID_USERNAME] } := by
  refine ⟨?_, by decide, by decide⟩
  intro rules fn v ht
  unfold validateField
  rw [if_neg (fun h => ht h.2), if_neg ht]

/-- Witness for C3 applying the general decomposition at the concrete
two-character value. -/
theorem validateField_cumulative_ordered_witness :
    (validateField "ab" { minLength := some 3 } none).errors =
      minLengthCheck { minLength := some 3 } (jsTrim "ab") ++
        maxLengthCheck { minLength := some 3 } (jsTrim "ab") ++
        patternCheck { minLength := some 3 } none (jsTrim "ab") :=
  validateField_cumulative_ordered.1 { minLength := some 3 } none "ab" (by decide)

/-- Claim C4: when a pattern rule is violated on a non-empty trimmed value,
validateField appends exactly the message selected by the fieldName tag: the
username-specific message for username, the job-title-specific message for
jobTitle, and the generic invalid-format text only for any other tag; in
particular the username example produces the username-specific message and
not the generic one. -/
theorem validateField_pattern_message_selection :
    (∀ (rules : ValidationRule) (fn : Option String) (v : String)
        (p : String → Bool),
      jsTrim v ≠ "" → rules.pattern = some p → p (jsTrim v) = false →
      (validateField v rules fn).errors =
        minLengthCheck rules (jsTrim v) ++ maxLengthCheck rules (jsTrim v) ++
          [patternMessage fn])
    ∧ (patternMessage (some "username") = ERROR_MESSAGES.INVALID_USERNAME ∧
       patternMessage (some "jobTitle") = ERROR_MESSAGES.INVALID_JOB_TITLE)
    ∧ (∀ fn : Option String, fn ≠ some "username" → fn ≠ some "jobTitle" →
        patternMessage fn = "Invalid format")
    ∧ validateField "invalid@user"
        { pattern := some VALIDATION_PATTERNS.USERNAME } (some "username") =
        { isValid := false, errors := [ERROR_MESSAGES.INVALID_USERNAME] }
    ∧ ERROR_MESSAGES.INVALID_USERNAME ≠ "Invalid format" := by
  refine ⟨?_, ⟨by decide, by decide⟩, ?_, by decide, by decide⟩
  · intro rules fn v p ht hp hfail
    unfold validateField
    rw [if_neg (fun h => ht h.2), if_neg ht]
    simp only [patternCheck, hp, hfail, if_pos]
  · intro fn h1 h2
    unfold patternMessage
    rw [if_neg h1, if_neg h2]

/-- Witness for C4: the generic message is selected when no field-name tag is
passed. -/
theorem validateField_pattern_message_selection_witness :
    patternMessage none = "Invalid format" :=
  validateField_pattern_message_selection.2.2.1 none (by decide) (by decide)

/-- Claim C7: for any rule set without required and any empty or
all-whitespace value, validateField is valid with an empty error list no
matter which minLength, maxLength or pattern constraints are present. -/
theorem validateField_optional_passthrough :
    ∀ (rules : ValidationRule) (fn : Option String) (v : String),
      rules.required = false → v.data.all jsWhitespaceChar = true →
      validateField v rules fn = { isValid := true, errors := [] } := by
  intro rules fn v hreq hws
  have ht : jsTrim v = "" := (jsTrim_eq_empty_iff v).mpr hws
  unfold validateField
  rw [if_neg (fun h => by rw [hreq] at h; exact absurd h.1 (by simp)), if_pos ht]

/-- Witness for C7 at a whitespace value against a rule set carrying every
kind of non-required constraint. -/
theorem validateField_optional_passthrough_witness :
    validateField " "
      { minLength := some 3, maxLength := some 5,
        pattern := some VALIDATION_PATTERNS.USERNAME } none =
      { isValid := true, errors := [] } :=
  validateField_optional_passthrough
    { minLength := some 3, maxLength := some 5,
      pattern := some VALIDATION_PATTERNS.USERNAME } none " " rfl (by decide)

/-- Claim C9: for every form-data record, isFormValid on the validateForm
results is the conjunction of the two per-field isValid flags, and
getFormErrors is the concatenation of the per-field error lists with the
username errors first. -/
theorem formAggregation :
    ∀ data : FormData,
      isFormValid (validateForm data) =
        ((validateField data.username VALIDATION_SCHEMA.username
            (some "username")).isValid &&
         (validateField data.jobTitle VALIDATION_SCHEMA.jobTitle
            (some "jobTitle")).isValid)
      ∧ getFormErrors (validateForm data) =
          (validateField data.username VALIDATION_SCHEMA.username
            (some "username")).errors ++
          (validateField data.jobTitle VALIDATION_SCHEMA.jobTitle
            (some "jobTitle")).errors := by
  intro data
  constructor
  · simp [isFormValid, validateForm]
  · simp [getFormErrors, validateForm]

/-- Claim C10: validateField behaves identically on a value and on its
trimmed form, so length bounds and the pattern are judged on the trimmed
value; in particular the padded two-character value violates a minLength of 3
although its raw length is at least 3. -/
theorem validateField_trims_before_checks :
    (∀ (rules : ValidationRule) (fn : Option String) (v : String),
      validateField v rules fn = validateField (jsTrim v) rules fn)
    ∧ validateField "  ab  " { minLength := some 3 } none =
        { isValid := false, errors := ["Must be at least 3 characters"] }
    ∧ (jsTrim "  ab  ").length < 3 ∧ 3 ≤ "  ab  ".length := by
  refine ⟨?_, by decide, by decide, by decide⟩
  intro rules fn v
  unfold validateField
  rw [jsTrim_idem]

/-- Claim C5: when the debounce timer fires after 400ms of inactivity, the
typed value is committed as the effective search exactly when its length is 0
or at least 3, and every commit resets page to 1; typed values of length 1 or
2 change nothing except disarming the timer, so no query fires for them.
Typing the two-character value and idling commits nothing, while the
three-character value commits and resets the page. -/
theorem debounce_commit_threshold :
    (∀ s : ListState, s.timerPending = true →
      (s.searchTerm.length = 0 ∨ 3 ≤ s.searchTerm.length) →
      stepList s ListEvent.idle400 =
        { s with debouncedSearch := s.searchTerm, page := some 1,
                 timerPending := false })
    ∧ (∀ s : ListState, s.timerPending = true →
      (s.searchTerm.length = 1 ∨ s.searchTerm.length = 2) →
      stepList s ListEvent.idle400 = { s with timerPending := false })
    ∧ ((stepList (stepList (loadListState []) (ListEvent.keystroke "na"))
          ListEvent.idle400).debouncedSearch = "" ∧
       (stepList (stepList (loadListState []) (ListEvent.keystroke "na"))
          ListEvent.idle400).timerPending = false)
    ∧ ((stepList (stepList (loadListState []) (ListEvent.keystroke "nar"))
          ListEvent.idle400).debouncedSearch = "nar" ∧
       (stepList (stepList (loadListState []) (ListEvent.keystroke "nar"))
          ListEvent.idle400).page = some 1) := by
  refine ⟨?_, ?_, by decide, by decide⟩
  · intro s h1 h2
    unfold stepList
    rw [if_pos h1, if_pos h2]
  · intro s h1 h2
    unfold stepList
    rw [if_pos h1, if_neg ?_]
    intro hc
    rcases h2 with h | h <;> rcases hc with hc | hc <;> omega

/-- Witness for C5 committing a concrete three-character typed value. -/
theorem debounce_commit_threshold_witness :
    stepList
      { searchTerm := "nar", debouncedSearch := "", page := some 5,
        perPage := some 12, timerPending := true } ListEvent.idle400 =
      { searchTerm := "nar", debouncedSearch := "nar", page := some 1,
        perPage := some 12, timerPending := false } :=
  debounce_commit_threshold.1
    { searchTerm := "nar", debouncedSearch := "", page := some 5,
      perPage := some 12, timerPending := true } rfl (Or.inr (by decide))

/-- Claim C2 counterexample: state reconstructed from URL query parameters is
taken verbatim from parseInt without validation, so a page parameter of 0, a
perPage parameter of 7, or a non-numeric page parameter all violate the
claimed invariant at load. -/
theorem queryInvariant_load_fails :
    queryInvariant (loadListState [("page", "0")]) = false ∧
    queryInvariant (loadListState [("perPage", "7")]) = false ∧
    queryInvariant (loadListState [("page", "abc")]) = false := by
  decide

/-- Claim C2 as amended: every handlePerPageChange call and every keystroke
resets page to 1 regardless of prior state; when handlePerPageChange receives
one of the four select-option values the invariant holds afterwards; and the
invariant holds for state loaded from a URL with no query parameters (the
defined defaults).  The invariant is not restored for arbitrary URL query
parameters, which are parsed verbatim. -/
theorem queryInvariant_amended :
    (∀ (s : ListState) (value : String),
      (handlePerPageChange s value).page = some 1)
    ∧ (∀ (s : ListState) (v : String),
      (stepList s (ListEvent.keystroke v)).page = some 1)
    ∧ (∀ (s : ListState) (value : String),
      (value = "6" ∨ value = "12" ∨ value = "24" ∨ value = "48") →
      queryInvariant (handlePerPageChange s value) = true)
    ∧ queryInvariant (loadListState []) = true := by
  refine ⟨fun s value => rfl, fun s v => rfl, ?_, by decide⟩
  intro s value h
  rcases h with rfl | rfl | rfl | rfl <;> rfl

/-- Witness for the amended C2 at a concrete state and option value. -/
theorem queryInvariant_amended_witness :
    queryInvariant (handlePerPageChange (loadListState [("page", "9")]) "24") = true :=
  queryInvariant_amended.2.2.1 (loadListState [("page", "9")]) "24"
    (Or.inr (Or.inr (Or.inl rfl)))

/-- Claim C6: re-serializing the state constructed from the concrete query
string reproduces it exactly; a state of all defaults serializes to the empty
query string; and in general a parameter key appears in the serialized list
exactly when its value differs from the default in the JS sense (page greater
than 1, non-empty search, perPage different from 12). -/
theorem url_serialize_roundtrip :
    ((let st := loadListState (parseQuery "?page=3&perPage=24")
      updateURL st.page st.searchTerm st.perPage) = "?page=3&perPage=24")
    ∧ updateURL (some 1) "" (some 12) = ""
    ∧ (∀ (p : Option Int) (s : String) (pp : Option Int),
        (urlParams p s pp).map Prod.fst =
          (if jsGtOne p = true then ["page"] else []) ++
          (if s ≠ "" then ["search"] else []) ++
          (if jsNeTwelve pp = true then ["perPage"] else [])) := by
  refine ⟨by decide, by decide, ?_⟩
  intro p s pp
  simp only [urlParams, List.map_append, apply_ite (List.map Prod.fst),
    List.map_cons, List.map_nil]

/-- Claim C8: the startup load reads the single storage key once; when the
stored content makes JSON.parse throw, the failure is caught, the user state
stays null and the key is removed, with no error propagating; absent content
also yields a null user, and well-formed content yields that user. -/
theorem loadUser_malformed_discarded :
    (∀ (jsonParse : String → JsonOutcome) (s : String),
      jsonParse s = JsonOutcome.thrown →
      loadUserFromStorage (some s) jsonParse =
        { user := none, storedAfter := none, isLoading := false })
    ∧ (∀ jsonParse : String → JsonOutcome,
      loadUserFromStorage none jsonParse =
        { user := none, storedAfter := none, isLoading := false })
    ∧ (∀ (jsonParse : String → JsonOutcome) (s : String) (u : User),
      jsonParse s = JsonOutcome.ok u →
      loadUserFromStorage (some s) jsonParse =
        { user := some u, storedAfter := some s, isLoading := false }) := by
  refine ⟨?_, fun _ => rfl, ?_⟩
  · intro jp s h
    simp only [loadUserFromStorage]
    rw [h]
  · intro jp s u h
    simp only [loadUserFromStorage]
    rw [h]

/-- Witness for C8 on concrete malformed stored content. -/
theorem loadUser_malformed_discarded_witness :
    loadUserFromStorage (some "oops") (fun _ => JsonOutcome.thrown) =
      { user := none, storedAfter := none, isLoading := false } :=
  loadUser_malformed_discarded.1 (fun _ => JsonOutcome.thrown) "oops" rfl
